import Mathlib

/-!
Shallow embedding of the live data-synchronization and presentation layer of
the healthcare-api-integration dashboard.

Sources embedded here:
* `client/static/js/api-client.js` — `HealthcareAPIClient.fetchAPI`, the
  formatting helpers `formatNumber` / `formatPercentage`, the widget sink
  `hideLoading`, and `MetricsRefreshManager` (`refreshAllMetrics`, `stop`).
* `charts.js` (the charts module) — `HealthcareChartsManager`
  (`createResponseTimeChart`, `createMessageVolumeChart`,
  `createHealthStatusChart`, `createFHIRTrendsChart`, `updateAllCharts`,
  `stopAutoUpdate`, `destroyCharts`) and the tooltip label callbacks.

JavaScript numbers are modelled as rationals, mutable object state as
explicit state passing, `async` failure as `Except` / explicit error
components, and the DOM as a partial map from element ids to innerHTML.
-/

/-! ## JavaScript number rendering helpers -/

/-- Rounding used by JS `toFixed(1)` scaled by ten: the nearest integer to
`10 * q` with ties toward plus infinity, i.e. `⌊10q + 1/2⌋`, computed on
the numerator and denominator with integer floor division
(`⌊(20·num + den) / (2·den)⌋`). -/
def roundTenths (q : ℚ) : ℤ :=
  Int.fdiv (20 * q.num + (q.den : ℤ)) (2 * (q.den : ℤ))

/-- JS `Number.prototype.toFixed(1)`: one decimal digit, half-up ties. -/
def toFixed1 (q : ℚ) : String :=
  let n : ℤ := roundTenths q
  let m : ℕ := n.natAbs
  (if n < 0 then "-" else "") ++ toString (m / 10) ++ "." ++ toString (m % 10)

/-- Decimal digits of the fraction `num/den` (with `num < den`), truncated
to `fuel` digits; used for the plain string rendering of a non-integer. -/
def fracDigits (num den : ℕ) : ℕ → String
  | 0 => ""
  | Nat.succ fuel =>
    if num = 0 then ""
    else toString (num * 10 / den) ++ fracDigits (num * 10 % den) den fuel

/-- String coercion of a JS number (used by template literals and innerHTML
assignment). Integers render exactly; non-integer rationals render with up
to ten decimal digits. -/
def qToString (q : ℚ) : String :=
  if q.den = 1 then toString q.num
  else
    (if q.num < 0 then "-" else "")
      ++ toString (q.num.natAbs / q.den) ++ "."
      ++ fracDigits (q.num.natAbs % q.den) q.den 10

/-- Walks the reversed digit list and inserts a comma after every third
digit (except at the very end). -/
def commaAux : List Char → ℕ → List Char
  | [], _ => []
  | c :: t, i =>
    c :: ((if (i + 1) % 3 = 0 && !t.isEmpty then [','] else []) ++ commaAux t (i + 1))

/-- en-US digit grouping of a natural number, e.g. `1234567 ↦ "1,234,567"`. -/
def natGrouped (n : ℕ) : String :=
  String.mk ((commaAux (toString n).toList.reverse 0).reverse)

/-- Pads a number below 1000 to exactly three digits. -/
def pad3 (n : ℕ) : String :=
  (if n < 10 then "00" else if n < 100 then "0" else "") ++ toString n

/-- Drops trailing `'0'` characters (fraction part of `toLocaleString`). -/
def stripTrailingZeros (s : String) : String :=
  String.mk (s.toList.reverse.dropWhile (fun c => c = '0')).reverse

/-- JS `Number.prototype.toLocaleString()` with the en-US defaults: digit
grouping on the integer part, at most three fraction digits, half-up. The
rounded magnitude `⌊1000·|q| + 1/2⌋` is computed on the numerator and
denominator with integer floor division. -/
def toLocaleStringQ (q : ℚ) : String :=
  let m : ℕ := (Int.fdiv (2000 * (q.num.natAbs : ℤ) + (q.den : ℤ)) (2 * (q.den : ℤ))).toNat
  let ip : ℕ := m / 1000
  let fr : ℕ := m % 1000
  (if q.num < 0 then "-" else "")
    ++ natGrouped ip
    ++ (if fr = 0 then "" else "." ++ stripTrailingZeros (pad3 fr))

/-! ## JS values and the formatting helpers (api-client.js lines 213-225) -/

/-- A (scalar) JavaScript value as it flows through the metric widgets. -/
inductive JSValue where
  | num (q : ℚ)
  | str (s : String)
  | bool (b : Bool)
  | nullV
  | undef
deriving DecidableEq

/-- String coercion applied by innerHTML assignment and template literals. -/
def jsToString : JSValue → String
  | .num q => qToString q
  | .str s => s
  | .bool b => if b then "true" else "false"
  | .nullV => "null"
  | .undef => "undefined"

/-- `formatNumber` (api-client.js lines 213-218): a `typeof === 'number'`
guard, then `toLocaleString`; every other value is returned unchanged. -/
def formatNumber (v : JSValue) : JSValue :=
  match v with
  | .num q => .str (toLocaleStringQ q)
  | x => x

/-- `formatPercentage` (api-client.js lines 220-225): a `typeof === 'number'`
guard, then `toFixed(1)` with a trailing percent sign; every other value is
returned unchanged. -/
def formatPercentage (v : JSValue) : JSValue :=
  match v with
  | .num q => .str (toFixed1 q ++ "%")
  | x => x

/-! ## The API Gateway Client: `fetchAPI` (api-client.js lines 45-76) -/

/-- A JSON document, as produced by `response.json()`. -/
inductive Json where
  | null
  | bool (b : Bool)
  | num (q : ℚ)
  | str (s : String)
  | arr (elems : List Json)
  | obj (fields : List (String × Json))

/-- The failure modes observable from `fetchAPI`: the `fetch` promise
rejecting (network), the explicit `throw` on a non-ok status, and
`response.json()` rejecting (undecodable body). -/
inductive FetchError where
  | network (msg : String)
  | httpStatus (code : ℕ) (statusText : String)
  | decode (msg : String)

/-- The observable part of a `fetch` `Response`: the ok flag, status data,
the raw text body, and the result of `response.json()` (`none` when the
body is not parseable JSON). -/
structure HttpResponse where
  ok : Bool
  status : ℕ
  statusText : String
  body : String
  json : Option Json

/-- `HealthcareAPIClient.fetchAPI` (api-client.js lines 45-76). `none`
models the `fetch` promise rejecting. On `!response.ok` the method throws;
otherwise it returns `await response.json()` unchanged — the catch block
logs and rethrows, so every error propagates to the caller. -/
def fetchAPI (response : Option HttpResponse) : Except FetchError Json :=
  match response with
  | none => .error (.network "fetch failed")
  | some r =>
    if r.ok = false then
      .error (.httpStatus r.status r.statusText)
    else
      match r.json with
      | none => .error (.decode "invalid json body")
      | some j => .ok j

/-! ## The DOM widget sink: `hideLoading` (api-client.js lines 197-203) -/

/-- The DOM as seen by the widget updater: a map from element id to the
element's current innerHTML; `none` means `getElementById` returns null. -/
def Dom : Type := String → Option String

/-- `hideLoading(elementId, content)` (api-client.js lines 197-203): look
the element up; when present replace its innerHTML with `content`, when
absent do nothing. -/
def hideLoading (elementId : String) (content : String) (d : Dom) : Dom :=
  fun x =>
    if x = elementId then
      match d elementId with
      | some _ => some content
      | none => none
    else d x

/-! ## Metric payloads consumed by `refreshAllMetrics` -/

/-- Fields of the FHIR metrics response read by the refresh cycle. -/
structure FHIRMetrics where
  active_patients : JSValue
  requests_per_minute : JSValue
  uptime_percentage : JSValue

/-- Fields of the HL7 metrics response read by the refresh cycle. -/
structure HL7Metrics where
  daily_message_count : JSValue
  most_common_type : JSValue
  avg_processing_time : JSValue
  queue_depth : JSValue

/-- Fields of the Epic metrics response read by the refresh cycle. -/
structure EpicMetrics where
  provider_organizations : JSValue
  patient_records : JSValue
  response_time_ms : JSValue

/-- Fields of the Azure metrics response read by the refresh cycle. -/
structure AzureMetrics where
  sla_compliance : JSValue
  data_processed_tb : JSValue
  api_calls_per_second : JSValue

/-- The outcome of the four metric fetches issued by one refresh cycle
(`getFHIRMetrics`, `getHL7Metrics`, `getEpicMetrics`, `getAzureMetrics`,
each routed through `fetchAPI`). -/
structure CycleOutcomes where
  fhir : Except FetchError FHIRMetrics
  hl7 : Except FetchError HL7Metrics
  epic : Except FetchError EpicMetrics
  azure : Except FetchError AzureMetrics

/-- The FHIR widget updates (api-client.js lines 486-488). -/
def updateFHIRWidgets (m : FHIRMetrics) (d : Dom) : Dom :=
  let d1 := hideLoading "fhirPatients" (jsToString (formatNumber m.active_patients)) d
  let d2 := hideLoading "fhirRequests" (jsToString (formatNumber m.requests_per_minute)) d1
  hideLoading "fhirUptime" (jsToString (formatPercentage m.uptime_percentage)) d2

/-- The HL7 widget updates (api-client.js lines 492-494). -/
def updateHL7Widgets (m : HL7Metrics) (d : Dom) : Dom :=
  let d1 := hideLoading "hl7Messages" (jsToString (formatNumber m.daily_message_count)) d
  let d2 := hideLoading "hl7MostCommon" (jsToString m.most_common_type) d1
  hideLoading "hl7ProcessingTime" (jsToString m.avg_processing_time ++ "s") d2

/-- The Epic widget updates (api-client.js lines 498-500). -/
def updateEpicWidgets (m : EpicMetrics) (d : Dom) : Dom :=
  let d1 := hideLoading "epicProviderOrgs" (jsToString (formatNumber m.provider_organizations)) d
  let d2 := hideLoading "epicPatientRecords" (jsToString m.patient_records) d1
  hideLoading "epicResponseTime" (jsToString m.response_time_ms ++ "ms") d2

/-- The Azure widget updates (api-client.js lines 504-506). -/
def updateAzureWidgets (m : AzureMetrics) (d : Dom) : Dom :=
  let d1 := hideLoading "azureSLA" (jsToString (formatPercentage m.sla_compliance)) d
  let d2 := hideLoading "azureDataProcessed" (jsToString m.data_processed_tb ++ "TB") d1
  hideLoading "azureApiCalls" (jsToString (formatNumber m.api_calls_per_second)) d2

/-- The alert-element updates (api-client.js lines 509-511). -/
def updateAlertWidgets (fhir : FHIRMetrics) (hl7 : HL7Metrics) (epic : EpicMetrics)
    (d : Dom) : Dom :=
  let d1 := hideLoading "epicAlertTime" (jsToString epic.response_time_ms ++ "ms") d
  let d2 := hideLoading "hl7QueueDepth" (jsToString hl7.queue_depth) d1
  hideLoading "auditLogsToday" (jsToString (formatNumber fhir.active_patients)) d2

/-- The body of the single `try` block of
`MetricsRefreshManager.refreshAllMetrics` (api-client.js lines 483-513):
the four fetches are awaited sequentially and each group of widget writes
happens right after its own fetch, so a rejected fetch aborts the rest of
the body while keeping every DOM write already performed. The second
component is the error the body throws, if any. -/
def refreshAllMetricsBody (o : CycleOutcomes) (d : Dom) : Dom × Option FetchError :=
  match o.fhir with
  | .error e => (d, some e)
  | .ok fhir =>
    let d1 := updateFHIRWidgets fhir d
    match o.hl7 with
    | .error e => (d1, some e)
    | .ok hl7 =>
      let d2 := updateHL7Widgets hl7 d1
      match o.epic with
      | .error e => (d2, some e)
      | .ok epic =>
        let d3 := updateEpicWidgets epic d2
        match o.azure with
        | .error e => (d3, some e)
        | .ok azure =>
          let d4 := updateAzureWidgets azure d3
          (updateAlertWidgets fhir hl7 epic d4, none)

/-- `MetricsRefreshManager.refreshAllMetrics` (api-client.js lines
480-518): the whole body runs inside one `try`; the `catch` only logs, so
the method returns the DOM as mutated up to the failure point. -/
def refreshAllMetrics (o : CycleOutcomes) (d : Dom) : Dom :=
  (refreshAllMetricsBody o d).1

/-- The caller-visible completion of `refreshAllMetrics`: an `Except` whose
error component would be an exception escaping the method. The `catch`
block (api-client.js lines 515-517) only logs, so both branches return
normally. -/
def refreshAllMetricsCall (o : CycleOutcomes) (d : Dom) : Except FetchError Dom :=
  match refreshAllMetricsBody o d with
  | (d1, some _) => .ok d1
  | (d1, none) => .ok d1

/-! ## `MetricsRefreshManager` interval state (api-client.js lines 473-539) -/

/-- The mutable state of a `MetricsRefreshManager`: the configured interval
and the `setInterval` handle (null when not running). -/
structure MetricsRefreshManager where
  intervalMs : ℕ
  intervalId : Option ℕ

/-- `MetricsRefreshManager.stop` (api-client.js lines 532-538): only acts
when `intervalId` is truthy; clears the interval and nulls the handle. -/
def MetricsRefreshManager.stop (s : MetricsRefreshManager) : MetricsRefreshManager :=
  match s.intervalId with
  | some _ => { s with intervalId := none }
  | none => s

/-! ## Chart State Manager data model (charts.js) -/

/-- A Chart.js background-color value: a single color string or a
per-element array of color strings. -/
inductive ColorSpec where
  | one (s : String)
  | many (l : List String)
deriving DecidableEq

/-- A Chart.js dataset as configured by this module: the mutable `data`
array plus the static visual attributes the module sets. -/
structure Dataset where
  label : Option String
  data : List ℚ
  backgroundColor : ColorSpec
  borderColor : String
  borderWidth : ℚ
deriving DecidableEq

/-- One live Chart.js instance as configured by this module: chart type,
labels, datasets, the y-axis `max` option when configured, and whether
`destroy()` has been called on it. -/
structure ChartRec where
  typ : String
  labels : List String
  datasets : List Dataset
  yMax : Option ℚ
  destroyed : Bool
deriving DecidableEq

/-- A value stored in the `this.charts` registry object: a reference to a
chart instance (by index into the instance heap), `null`, `undefined`, or
some other object that has no `destroy` function. -/
inductive RegEntry where
  | chart (id : ℕ)
  | nullV
  | undefV
  | noDestroy
deriving DecidableEq

/-- The mutable state of a `HealthcareChartsManager` (charts.js lines
7-12): `heap` holds every chart instance ever constructed (a registry
entry `chart id` points at `heap[id]`), `charts` is the `this.charts`
object, and `updateInterval` is the auto-update `setInterval` handle. -/
structure HealthcareChartsManager where
  heap : List ChartRec
  charts : List (String × RegEntry)
  updateInterval : Option ℕ

/-- The manager as built by its constructor: `this.charts = {}`,
`this.updateInterval = null`, and no chart instance constructed yet. -/
def initChartsManager : HealthcareChartsManager :=
  { heap := [], charts := [], updateInterval := none }

/-- JS property assignment on the registry object: replace the value when
the key exists, append it otherwise. -/
def setEntry (l : List (String × RegEntry)) (k : String) (v : RegEntry) :
    List (String × RegEntry) :=
  match l with
  | [] => [(k, v)]
  | (k0, v0) :: t => if k0 = k then (k, v) :: t else (k0, v0) :: setEntry t k v

/-- In-place mutation of the chart instance at heap index `i`. -/
def setAt (l : List ChartRec) (i : ℕ) (f : ChartRec → ChartRec) : List ChartRec :=
  match l, i with
  | [], _ => []
  | rc :: t, 0 => f rc :: t
  | rc :: t, Nat.succ n => rc :: setAt t n f

/-- Registers a newly constructed chart instance under `name`
(`this.charts.name = new Chart(...)`). -/
def addChart (s : HealthcareChartsManager) (name : String) (rc : ChartRec) :
    HealthcareChartsManager :=
  { s with
    heap := s.heap ++ [rc]
    charts := setEntry s.charts name (RegEntry.chart s.heap.length) }

/-! ## Chart construction (charts.js lines 39-390) -/

/-- One dataset of the response-time analytics payload, as consumed by
`createResponseTimeChart` (fields the module reads: `label`,
`borderColor`, `data`). -/
structure SrcDataset where
  label : String
  borderColor : String
  data : List ℚ

/-- The response-time analytics payload. -/
structure ResponseTimeData where
  labels : List String
  datasets : List SrcDataset

/-- The message-volume analytics payload. -/
structure VolumeData where
  labels : List String
  data : List ℚ
  backgroundColor : List String

/-- The system-health analytics payload. -/
structure SystemHealthData where
  labels : List String
  data : List ℚ
  backgroundColor : List String

/-- The dataset mapping in `createResponseTimeChart` (charts.js lines
55-65): spread of the source dataset plus the derived `backgroundColor`
(`borderColor + '20'`) and the static line styling. -/
def mkLineDataset (sd : SrcDataset) : Dataset :=
  { label := some sd.label
    data := sd.data
    backgroundColor := ColorSpec.one (sd.borderColor ++ "20")
    borderColor := sd.borderColor
    borderWidth := 3 }

/-- The chart instance built by `createResponseTimeChart` (charts.js lines
51-123): a line chart, no y-axis `max` option. -/
def mkResponseTimeRec (rt : ResponseTimeData) : ChartRec :=
  { typ := "line"
    labels := rt.labels
    datasets := rt.datasets.map mkLineDataset
    yMax := none
    destroyed := false }

/-- The chart instance built by `createMessageVolumeChart` (charts.js
lines 147-193): a doughnut chart with one dataset. -/
def mkMessageVolumeRec (vd : VolumeData) : ChartRec :=
  { typ := "doughnut"
    labels := vd.labels
    datasets := [{ label := none
                   data := vd.data
                   backgroundColor := ColorSpec.many vd.backgroundColor
                   borderColor := "#ffffff"
                   borderWidth := 4 }]
    yMax := none
    destroyed := false }

/-- The chart instance built by `createHealthStatusChart` (charts.js lines
217-286): a bar chart with one dataset and `scales.y.max = 100`. -/
def mkHealthStatusRec (hd : SystemHealthData) : ChartRec :=
  { typ := "bar"
    labels := hd.labels
    datasets := [{ label := some "Uptime %"
                   data := hd.data
                   backgroundColor := ColorSpec.many hd.backgroundColor
                   borderColor := "#ffffff"
                   borderWidth := 1 }]
    yMax := some 100
    destroyed := false }

/-- The hard-coded base data of the FHIR trends chart (charts.js line 311). -/
def fhirTrendsBaseData : List ℚ := [1247, 892, 634, 445, 321]

/-- The chart instance built by `createFHIRTrendsChart` (charts.js lines
308-383): a bar chart over the hard-coded FHIR resource data. -/
def mkFhirTrendsRec : ChartRec :=
  { typ := "bar"
    labels := ["Patient", "Observation", "Encounter", "Medication", "DiagnosticReport"]
    datasets := [{ label := some "Resources Processed"
                   data := fhirTrendsBaseData
                   backgroundColor := ColorSpec.many
                     ["#0078d4", "#059669", "#e67e22", "#6b46c1", "#f59e0b"]
                   borderColor := "#ffffff"
                   borderWidth := 1 }]
    yMax := none
    destroyed := false }

/-- `HealthcareChartsManager.createResponseTimeChart` (charts.js lines
39-130): bail out when the canvas is missing; on a failed fetch the catch
logs and the state is unchanged; on success assign a brand-new `Chart` to
`this.charts.responseTime` — the previous instance, if any, is neither
destroyed nor touched. -/
def createResponseTimeChart (canvasPresent : Bool)
    (res : Except FetchError ResponseTimeData) (s : HealthcareChartsManager) :
    HealthcareChartsManager :=
  if canvasPresent then
    match res with
    | .error _ => s
    | .ok rt => addChart s "responseTime" (mkResponseTimeRec rt)
  else s

/-- `HealthcareChartsManager.createMessageVolumeChart` (charts.js lines
135-200), same structure as `createResponseTimeChart`. -/
def createMessageVolumeChart (canvasPresent : Bool)
    (res : Except FetchError VolumeData) (s : HealthcareChartsManager) :
    HealthcareChartsManager :=
  if canvasPresent then
    match res with
    | .error _ => s
    | .ok vd => addChart s "messageVolume" (mkMessageVolumeRec vd)
  else s

/-- `HealthcareChartsManager.createHealthStatusChart` (charts.js lines
205-293), same structure as `createResponseTimeChart`. -/
def createHealthStatusChart (canvasPresent : Bool)
    (res : Except FetchError SystemHealthData) (s : HealthcareChartsManager) :
    HealthcareChartsManager :=
  if canvasPresent then
    match res with
    | .error _ => s
    | .ok hd => addChart s "healthStatus" (mkHealthStatusRec hd)
  else s

/-- `HealthcareChartsManager.createFHIRTrendsChart` (charts.js lines
298-390): no fetch is involved, the data is hard-coded. -/
def createFHIRTrendsChart (canvasPresent : Bool) (s : HealthcareChartsManager) :
    HealthcareChartsManager :=
  if canvasPresent then addChart s "fhirTrends" mkFhirTrendsRec else s

/-! ## Tooltip label callbacks (charts.js lines 181-187 and 245-247) -/

/-- `reduce((a, b) => a + b, 0)` over a dataset's data. -/
def sumQ (l : List ℚ) : ℚ := l.foldl (fun a b => a + b) 0

/-- The tooltip label callback of the message-volume doughnut (charts.js
lines 181-187). Its context supplies the slice label (`context.label`),
the slice value (`context.parsed`) and the full current dataset data
(`context.dataset.data`); the total is recomputed from the current data on
every invocation. -/
def messageVolumeTooltipLabel (label : String) (value : ℚ) (dsData : List ℚ) :
    String :=
  let total := sumQ dsData
  let percentage := toFixed1 (value / total * 100)
  label ++ ": " ++ qToString value ++ "% (" ++ percentage ++ "% of total)"

/-- The tooltip label callback of the health-status bar chart (charts.js
lines 245-247): `Uptime: ${context.parsed.y.toFixed(1)}%`. -/
def healthStatusTooltipLabel (parsedY : ℚ) : String :=
  "Uptime: " ++ toFixed1 parsedY ++ "%"

/-! ## `updateAllCharts` (charts.js lines 395-440) -/

/-- An error escaping a step of the charts update loop: a rejected fetch,
or a TypeError from accessing `.data.datasets` on a registry value that is
not a chart instance. -/
inductive RunErr where
  | fetch (e : FetchError)
  | typeError

/-- Fetch outcomes of the three analytics requests `updateAllCharts` can
issue. -/
structure ChartsOutcomes where
  responseTimes : Except FetchError ResponseTimeData
  messageVolume : Except FetchError VolumeData
  systemHealth : Except FetchError SystemHealthData

/-- `forEach((dataset, index) => { if (responseData.datasets[index])
dataset.data = responseData.datasets[index].data })` (charts.js lines
402-406): each existing dataset takes the new data at its index when
present, and is left alone past the end of the incoming array. -/
def updateLineData : List Dataset → List SrcDataset → List Dataset
  | [], _ => []
  | ds :: t, [] => ds :: updateLineData t []
  | ds :: t, nd :: nt => { ds with data := nd.data } :: updateLineData t nt

/-- `datasets[0].data = newData` — the charts built by this module always
carry at least one dataset, so the empty branch is unreachable for states
produced by the constructors above. -/
def setData0 : List Dataset → List ℚ → List Dataset
  | [], _ => []
  | ds :: t, newData => { ds with data := newData } :: t

/-- The response-time branch of `updateAllCharts` (charts.js lines
399-408): truthiness test on `this.charts.responseTime`, then the fetch,
then the in-place dataset mutation. A truthy non-chart registry value
makes the `.data.datasets` access throw. -/
def respStep (res : Except FetchError ResponseTimeData)
    (s : HealthcareChartsManager) : HealthcareChartsManager × Option RunErr :=
  match List.lookup "responseTime" s.charts with
  | some (RegEntry.chart id) =>
    (match res with
     | .error e => (s, some (RunErr.fetch e))
     | .ok rd =>
       let h := setAt s.heap id
         (fun rc => { rc with datasets := updateLineData rc.datasets rd.datasets })
       ({ s with heap := h }, none))
  | some RegEntry.noDestroy =>
    (match res with
     | .error e => (s, some (RunErr.fetch e))
     | .ok _ => (s, some RunErr.typeError))
  | _ => (s, none)

/-- The message-volume branch of `updateAllCharts` (charts.js lines
411-415). -/
def volStep (res : Except FetchError VolumeData)
    (s : HealthcareChartsManager) : HealthcareChartsManager × Option RunErr :=
  match List.lookup "messageVolume" s.charts with
  | some (RegEntry.chart id) =>
    (match res with
     | .error e => (s, some (RunErr.fetch e))
     | .ok vd =>
       let h := setAt s.heap id
         (fun rc => { rc with datasets := setData0 rc.datasets vd.data })
       ({ s with heap := h }, none))
  | some RegEntry.noDestroy =>
    (match res with
     | .error e => (s, some (RunErr.fetch e))
     | .ok _ => (s, some RunErr.typeError))
  | _ => (s, none)

/-- The health-status branch of `updateAllCharts` (charts.js lines
418-422). -/
def healthStep (res : Except FetchError SystemHealthData)
    (s : HealthcareChartsManager) : HealthcareChartsManager × Option RunErr :=
  match List.lookup "healthStatus" s.charts with
  | some (RegEntry.chart id) =>
    (match res with
     | .error e => (s, some (RunErr.fetch e))
     | .ok hd =>
       let h := setAt s.heap id
         (fun rc => { rc with datasets := setData0 rc.datasets hd.data })
       ({ s with heap := h }, none))
  | some RegEntry.noDestroy =>
    (match res with
     | .error e => (s, some (RunErr.fetch e))
     | .ok _ => (s, some RunErr.typeError))
  | _ => (s, none)

/-- The simulated FHIR-trends data (charts.js lines 426-430): each base
value plus a per-index random variation, clamped from below at 100. The
random draws are passed in as `vars`. -/
def newFhirTrendsData (vars : ℕ → ℤ) : List ℚ :=
  fhirTrendsBaseData.mapIdx (fun i v => max 100 (v + (vars i : ℚ)))

/-- The FHIR-trends branch of `updateAllCharts` (charts.js lines 425-433):
no fetch, data simulated locally. -/
def fhirTrendsStep (vars : ℕ → ℤ)
    (s : HealthcareChartsManager) : HealthcareChartsManager × Option RunErr :=
  match List.lookup "fhirTrends" s.charts with
  | some (RegEntry.chart id) =>
    let h := setAt s.heap id
      (fun rc => { rc with datasets := setData0 rc.datasets (newFhirTrendsData vars) })
    ({ s with heap := h }, none)
  | some RegEntry.noDestroy => (s, some RunErr.typeError)
  | _ => (s, none)

/-- Runs the continuation only when no exception has been thrown yet; an
exception aborts the rest of the `try` body while keeping the mutations
already performed. -/
def chainErr (r : HealthcareChartsManager × Option RunErr)
    (f : HealthcareChartsManager → HealthcareChartsManager × Option RunErr) :
    HealthcareChartsManager × Option RunErr :=
  match r with
  | (s, some e) => (s, some e)
  | (s, none) => f s

/-- The body of the single `try` block of
`HealthcareChartsManager.updateAllCharts` (charts.js lines 398-435): the
four chart branches run sequentially; an exception in one branch aborts
the following branches but keeps every in-place mutation already made. -/
def updateAllChartsBody (o : ChartsOutcomes) (vars : ℕ → ℤ)
    (s : HealthcareChartsManager) : HealthcareChartsManager × Option RunErr :=
  chainErr (respStep o.responseTimes s) (fun s1 =>
    chainErr (volStep o.messageVolume s1) (fun s2 =>
      chainErr (healthStep o.systemHealth s2) (fun s3 =>
        fhirTrendsStep vars s3)))

/-- `HealthcareChartsManager.updateAllCharts` (charts.js lines 395-440):
the whole body runs inside one `try`; the `catch` only logs, so the
method returns the state as mutated up to the failure point. -/
def updateAllCharts (o : ChartsOutcomes) (vars : ℕ → ℤ)
    (s : HealthcareChartsManager) : HealthcareChartsManager :=
  (updateAllChartsBody o vars s).1

/-- The caller-visible completion of `updateAllCharts`: the `catch` block
(charts.js lines 437-439) only logs, so both branches return normally. -/
def updateAllChartsCall (o : ChartsOutcomes) (vars : ℕ → ℤ)
    (s : HealthcareChartsManager) : Except RunErr HealthcareChartsManager :=
  match updateAllChartsBody o vars s with
  | (s1, some _) => .ok s1
  | (s1, none) => .ok s1

/-! ## Auto-update lifecycle and teardown (charts.js lines 445-492) -/

/-- `HealthcareChartsManager.stopAutoUpdate` (charts.js lines 460-466):
only acts when `updateInterval` is truthy; clears the interval and nulls
the handle. -/
def stopAutoUpdate (s : HealthcareChartsManager) : HealthcareChartsManager :=
  match s.updateInterval with
  | some _ => { s with updateInterval := none }
  | none => s

/-- The guard `chart && typeof chart.destroy === 'function'` (charts.js
line 486): only a chart instance is truthy and has a `destroy` function. -/
def hasDestroyFn : RegEntry → Bool
  | RegEntry.chart _ => true
  | _ => false

/-- Invoking `.destroy()` on a registry value: on a chart instance it
marks the instance destroyed; on any other value the member call throws a
TypeError. -/
def jsCallDestroy (e : RegEntry) (h : List ChartRec) :
    List ChartRec × Option RunErr :=
  match e with
  | RegEntry.chart id => (setAt h id (fun rc => { rc with destroyed := true }), none)
  | _ => (h, some RunErr.typeError)

/-- One `forEach` iteration of `destroyCharts`: skipped entirely once an
exception is pending; otherwise the guard decides whether `.destroy()` is
invoked. -/
def destroyStep (acc : List ChartRec × Option RunErr) (e : RegEntry) :
    List ChartRec × Option RunErr :=
  match acc with
  | (h, some err) => (h, some err)
  | (h, none) => if hasDestroyFn e then jsCallDestroy e h else (h, none)

/-- `HealthcareChartsManager.destroyCharts` (charts.js lines 483-492):
`Object.values(this.charts)` is walked with the null-safety guard, then
`this.charts = {}` and `stopAutoUpdate()`. There is no `try` here: were an
iteration to throw, the registry reset would not run and the exception
would escape (second component). -/
def destroyCharts (s : HealthcareChartsManager) :
    HealthcareChartsManager × Option RunErr :=
  match (s.charts.map Prod.snd).foldl destroyStep (s.heap, none) with
  | (h, some err) => ({ s with heap := h }, some err)
  | (h, none) => (stopAutoUpdate { s with heap := h, charts := [] }, none)

/-! ## Concrete sample data for counterexamples and witnesses -/

/-- A dashboard DOM in which every metric widget element exists and shows
the stale content `"old"`. -/
def dashboardDom : Dom :=
  fun x =>
    if ["fhirPatients", "fhirRequests", "fhirUptime",
        "hl7Messages", "hl7MostCommon", "hl7ProcessingTime",
        "epicProviderOrgs", "epicPatientRecords", "epicResponseTime",
        "azureSLA", "azureDataProcessed", "azureApiCalls",
        "epicAlertTime", "hl7QueueDepth", "auditLogsToday"].contains x
    then some "old" else none

/-- A sample successful FHIR metrics payload. -/
def fhirSample : FHIRMetrics :=
  { active_patients := JSValue.num 1234
    requests_per_minute := JSValue.num 567
    uptime_percentage := JSValue.num (mkRat 999 10) }

/-- A sample successful HL7 metrics payload. -/
def hl7Sample : HL7Metrics :=
  { daily_message_count := JSValue.num 1234
    most_common_type := JSValue.str "ADT"
    avg_processing_time := JSValue.num 2
    queue_depth := JSValue.num 12 }

/-- A sample successful Epic metrics payload. -/
def epicSample : EpicMetrics :=
  { provider_organizations := JSValue.num 45
    patient_records := JSValue.str "2.1M"
    response_time_ms := JSValue.num 186 }

/-- A sample successful Azure metrics payload. -/
def azureSample : AzureMetrics :=
  { sla_compliance := JSValue.num (mkRat 9995 100)
    data_processed_tb := JSValue.num 14
    api_calls_per_second := JSValue.num 2500 }

/-- A cycle in which all four metric fetches succeed. -/
def cycleAllOk : CycleOutcomes :=
  { fhir := Except.ok fhirSample
    hl7 := Except.ok hl7Sample
    epic := Except.ok epicSample
    azure := Except.ok azureSample }

/-- A cycle in which exactly the FHIR metrics fetch fails and the other
three fetches would succeed. -/
def cycleFhirDown : CycleOutcomes :=
  { fhir := Except.error (FetchError.network "ECONNREFUSED")
    hl7 := Except.ok hl7Sample
    epic := Except.ok epicSample
    azure := Except.ok azureSample }

/-- A sample response-time analytics payload (first fetch). -/
def rtSample1 : ResponseTimeData :=
  { labels := ["00:00", "04:00", "08:00"]
    datasets := [{ label := "FHIR API", borderColor := "#059669", data := [120, 95, 180] }] }

/-- A sample response-time analytics payload (second fetch). -/
def rtSample2 : ResponseTimeData :=
  { labels := ["00:00", "04:00", "08:00"]
    datasets := [{ label := "FHIR API", borderColor := "#059669", data := [110, 99, 170] }] }

/-- A 2xx response whose JSON body has `labels` of length two but a series
of length three — the malformed shape named by the specification. -/
def mismatchedJson : Json :=
  Json.obj
    [("labels", Json.arr [Json.str "EpicAPI", Json.str "CernerAPI"]),
     ("series", Json.obj [("uptime", Json.arr [Json.num 99, Json.num 97, Json.num 95])])]

/-- The 2xx HTTP response carrying `mismatchedJson`. -/
def mismatchedResponse : HttpResponse :=
  { ok := true, status := 200, statusText := "OK"
    body := "mismatched", json := some mismatchedJson }

/-- A 2xx response whose JSON body is missing every expected field. -/
def missingFieldsResponse : HttpResponse :=
  { ok := true, status := 200, statusText := "OK"
    body := "empty object", json := some (Json.obj []) }

/-- A sample message-volume payload used as the first (stale) snapshot. -/
def volSample1 : VolumeData :=
  { labels := ["Patient", "Observation", "Encounter", "Medication", "DiagnosticReport"]
    data := [mkRat 40 1, mkRat 25 1, mkRat 20 1, mkRat 10 1, mkRat 5 1]
    backgroundColor := ["#0078d4", "#059669", "#e67e22", "#6b46c1", "#f59e0b"] }

/-- The message-volume snapshot with the raw values named by the
specification scenario. -/
def volSampleFhir : VolumeData :=
  { labels := ["Patient", "Observation", "Encounter", "Medication", "DiagnosticReport"]
    data := [1247, 892, 634, 445, 321]
    backgroundColor := ["#0078d4", "#059669", "#e67e22", "#6b46c1", "#f59e0b"] }

/-- Charts-update outcomes delivering `volSampleFhir` for the
message-volume query while both sibling fetches fail. -/
def chartsOutcomesVol : ChartsOutcomes :=
  { responseTimes := Except.error (FetchError.network "down")
    messageVolume := Except.ok volSampleFhir
    systemHealth := Except.error (FetchError.network "down") }

/-! ## Helper lemmas -/

theorem lookup_setEntry (l : List (String × RegEntry)) (k : String) (v : RegEntry) :
    List.lookup k (setEntry l k v) = some v := by
  induction l with
  | nil => simp [setEntry, List.lookup]
  | cons p t ih =>
    obtain ⟨k0, v0⟩ := p
    by_cases h : k0 = k
    · simp [setEntry, h, List.lookup]
    · simp only [setEntry, if_neg h, List.lookup]
      have hbeq : (k == k0) = false := by
        exact beq_false_of_ne (fun hk => h hk.symm)
      rw [hbeq]
      exact ih

/-! ## Claim theorems -/

/-- C10: for every input whose type is not number (a string, undefined,
null, a boolean), `formatNumber` and `formatPercentage` return the input
unchanged; a number input is reformatted to a string — locale grouping for
`formatNumber`, one decimal place with a trailing percent sign for
`formatPercentage`. -/
theorem format_helpers_pass_through (v : JSValue) (q : ℚ)
    (hv : ∀ r : ℚ, v ≠ JSValue.num r) :
    formatNumber v = v ∧ formatPercentage v = v ∧
    formatNumber (JSValue.num q) = JSValue.str (toLocaleStringQ q) ∧
    formatPercentage (JSValue.num q) = JSValue.str (toFixed1 q ++ "%") := by
  refine ⟨?_, ?_, rfl, rfl⟩
  · cases v with
    | num r => exact absurd rfl (hv r)
    | str s => rfl
    | bool b => rfl
    | nullV => rfl
    | undef => rfl
  · cases v with
    | num r => exact absurd rfl (hv r)
    | str s => rfl
    | bool b => rfl
    | nullV => rfl
    | undef => rfl

/-- Witness for C10 at the string `"loading"` and the number `5/2`. -/
theorem format_helpers_witness :
    formatNumber (JSValue.str "loading") = JSValue.str "loading" ∧
    formatPercentage (JSValue.str "loading") = JSValue.str "loading" ∧
    formatNumber (JSValue.num (mkRat 5 2)) = JSValue.str (toLocaleStringQ (mkRat 5 2)) ∧
    formatPercentage (JSValue.num (mkRat 5 2)) = JSValue.str (toFixed1 (mkRat 5 2) ++ "%") :=
  format_helpers_pass_through (JSValue.str "loading") (mkRat 5 2)
    (fun _ h => JSValue.noConfusion h)

/-- C8: `stop` on a `MetricsRefreshManager` whose interval handle is null
(never started, or already stopped) changes nothing — the handle stays
null and the configured interval is untouched; likewise `stopAutoUpdate`
on the charts manager. -/
theorem stop_when_not_running_is_noop (m : MetricsRefreshManager)
    (s : HealthcareChartsManager)
    (hm : m.intervalId = none) (hs : s.updateInterval = none) :
    MetricsRefreshManager.stop m = m ∧ stopAutoUpdate s = s := by
  constructor
  · simp [MetricsRefreshManager.stop, hm]
  · simp [stopAutoUpdate, hs]

/-- Witness for C8 at a freshly constructed scheduler (interval 30000 ms,
never started) and a freshly constructed charts manager. -/
theorem stop_when_not_running_witness :
    MetricsRefreshManager.stop { intervalMs := 30000, intervalId := none }
      = { intervalMs := 30000, intervalId := none } ∧
    stopAutoUpdate initChartsManager = initChartsManager :=
  stop_when_not_running_is_noop { intervalMs := 30000, intervalId := none }
    initChartsManager rfl rfl

/-- C3 (counterexample): a 2xx response whose body has `labels` of length
two and a series of length three is returned by `fetchAPI` as a successful
result carrying the malformed body — it is not rejected with a
`DecodeError`, contradicting the claim that such responses fail and
produce no snapshot. -/
theorem fetchAPI_decode_counterexample :
    fetchAPI (some mismatchedResponse) = Except.ok mismatchedJson ∧
    (fetchAPI (some mismatchedResponse)).isOk = true :=
  ⟨rfl, rfl⟩

/-- C3 (amended): `fetchAPI` performs no structural validation. For every
2xx response whose body parses as JSON it returns the decoded body
unchanged — neither truncated nor padded, whatever fields or lengths it
has; it fails only on a non-2xx status, a network failure, or an
unparseable body. -/
theorem fetchAPI_returns_body_unvalidated (r : HttpResponse) (j : Json)
    (hok : r.ok = true) (hj : r.json = some j) :
    fetchAPI (some r) = Except.ok j := by
  simp [fetchAPI, hok, hj]

/-- Witness for C3 (amended) at a 2xx response whose JSON body is an empty
object, missing every expected field. -/
theorem fetchAPI_returns_body_unvalidated_witness :
    fetchAPI (some missingFieldsResponse) = Except.ok (Json.obj []) :=
  fetchAPI_returns_body_unvalidated missingFieldsResponse (Json.obj []) rfl rfl

/-- C7: the health-status bar chart is created with the y-axis `max`
option set to 100 regardless of the snapshot's data values, and the
tooltip label for a bar whose parsed y-value is 99.9 is exactly
`"Uptime: 99.9%"`. -/
theorem healthStatusChart_yMax_and_tooltip (hd : SystemHealthData)
    (s : HealthcareChartsManager) :
    (createHealthStatusChart true (Except.ok hd) s).heap = s.heap ++ [mkHealthStatusRec hd] ∧
    (mkHealthStatusRec hd).yMax = some 100 ∧
    healthStatusTooltipLabel (mkRat 999 10) = "Uptime: 99.9%" := by
  refine ⟨rfl, rfl, by decide⟩

/-- C2 (counterexample): calling `createResponseTimeChart` twice (canvas
present, both fetches succeeding) leaves two chart instances in existence
with `destroyed = false` — the prior handle was not destroyed before the
new one was created; the registry points at the second instance. -/
theorem createResponseTimeChart_reinit_counterexample :
    (createResponseTimeChart true (Except.ok rtSample2)
        (createResponseTimeChart true (Except.ok rtSample1) initChartsManager)).heap.map
        ChartRec.destroyed = [false, false] ∧
    List.lookup "responseTime"
        (createResponseTimeChart true (Except.ok rtSample2)
          (createResponseTimeChart true (Except.ok rtSample1) initChartsManager)).charts
      = some (RegEntry.chart 1) := by
  exact ⟨rfl, rfl⟩

/-- C2 (amended): a second `createResponseTimeChart` call overwrites the
registry entry, so exactly one handle is registered for the query
afterwards — the new one — but the prior handle is never destroyed: it
survives, live (`destroyed = false`), merely unregistered. -/
theorem createResponseTimeChart_reinit_leaks_prior_handle
    (s : HealthcareChartsManager) (rt1 rt2 : ResponseTimeData) :
    (createResponseTimeChart true (Except.ok rt2)
        (createResponseTimeChart true (Except.ok rt1) s)).heap
      = (s.heap ++ [mkResponseTimeRec rt1]) ++ [mkResponseTimeRec rt2] ∧
    List.lookup "responseTime"
        (createResponseTimeChart true (Except.ok rt2)
          (createResponseTimeChart true (Except.ok rt1) s)).charts
      = some (RegEntry.chart (s.heap.length + 1)) ∧
    (mkResponseTimeRec rt1).destroyed = false := by
  refine ⟨rfl, ?_, rfl⟩
  show List.lookup "responseTime"
      (setEntry (setEntry s.charts "responseTime" (RegEntry.chart s.heap.length))
        "responseTime" (RegEntry.chart (s.heap ++ [mkResponseTimeRec rt1]).length))
    = some (RegEntry.chart (s.heap.length + 1))
  rw [lookup_setEntry]
  simp

/-- C1 (counterexample): in a cycle where exactly the FHIR fetch fails and
the HL7, Epic and Azure fetches succeed, the HL7 display widget
`hl7Messages` keeps its stale content `"old"` instead of being updated to
`"1,234"` as it is in an all-success cycle — the other queries' widgets
are not updated, refuting cross-query isolation. -/
theorem refreshAllMetrics_isolation_counterexample :
    refreshAllMetrics cycleFhirDown dashboardDom "hl7Messages" = some "old" ∧
    refreshAllMetrics cycleAllOk dashboardDom "hl7Messages" = some "1,234" ∧
    ("old" : String) ≠ "1,234" := by
  refine ⟨rfl, by decide, by decide⟩

/-- C1 (amended): a failing fetch aborts the refresh cycle at the first
failing query, whichever of the four it is: exactly the widget groups
written before that query's fetch are updated and everything written
after it is skipped. FHIR failing updates nothing; HL7 failing updates
only the FHIR widgets; Epic failing updates the FHIR and HL7 widgets;
Azure failing updates the FHIR, HL7 and Epic widgets — in that last case
the trailing alert widgets, although they display earlier queries' data,
are also skipped because they are written after the Azure fetch. In every
case the error is caught at the cycle boundary and does not propagate. -/
theorem refreshAllMetrics_halts_at_first_failure
    (o : CycleOutcomes) (d : Dom) :
    (∀ e, o.fhir = Except.error e →
      refreshAllMetrics o d = d) ∧
    (∀ f e, o.fhir = Except.ok f → o.hl7 = Except.error e →
      refreshAllMetrics o d = updateFHIRWidgets f d) ∧
    (∀ f h e, o.fhir = Except.ok f → o.hl7 = Except.ok h →
      o.epic = Except.error e →
      refreshAllMetrics o d = updateHL7Widgets h (updateFHIRWidgets f d)) ∧
    (∀ f h p e, o.fhir = Except.ok f → o.hl7 = Except.ok h →
      o.epic = Except.ok p → o.azure = Except.error e →
      refreshAllMetrics o d
        = updateEpicWidgets p (updateHL7Widgets h (updateFHIRWidgets f d))) := by
  obtain ⟨o1, o2, o3, o4⟩ := o
  refine ⟨?_, ?_, ?_, ?_⟩
  · intro e he
    have h1 : o1 = Except.error e := he
    subst h1
    rfl
  · intro f e hf he
    have h1 : o1 = Except.ok f := hf
    have h2 : o2 = Except.error e := he
    subst h1
    subst h2
    rfl
  · intro f h e hf hh he
    have h1 : o1 = Except.ok f := hf
    have h2 : o2 = Except.ok h := hh
    have h3 : o3 = Except.error e := he
    subst h1
    subst h2
    subst h3
    rfl
  · intro f h p e hf hh hp he
    have h1 : o1 = Except.ok f := hf
    have h2 : o2 = Except.ok h := hh
    have h3 : o3 = Except.ok p := hp
    have h4 : o4 = Except.error e := he
    subst h1
    subst h2
    subst h3
    subst h4
    rfl

/-- Witness for C1 (amended): concrete cycle in which only the Azure fetch
fails over the sample dashboard DOM — the FHIR, HL7 and Epic widget groups
are updated and the Azure and alert widgets are skipped. -/
theorem refreshAllMetrics_halts_witness :
    refreshAllMetrics
        { fhir := Except.ok fhirSample
          hl7 := Except.ok hl7Sample
          epic := Except.ok epicSample
          azure := Except.error (FetchError.network "down") } dashboardDom
      = updateEpicWidgets epicSample
          (updateHL7Widgets hl7Sample (updateFHIRWidgets fhirSample dashboardDom)) :=
  (refreshAllMetrics_halts_at_first_failure
      { fhir := Except.ok fhirSample
        hl7 := Except.ok hl7Sample
        epic := Except.ok epicSample
        azure := Except.error (FetchError.network "down") } dashboardDom).2.2.2
    fhirSample hl7Sample epicSample (FetchError.network "down") rfl rfl rfl rfl

/-- C5: neither cycle function lets an exception escape to its caller: for
every combination of per-query fetch outcomes (any subset failing with any
`FetchError`), `refreshAllMetrics` and `updateAllCharts` complete normally
— the boundary `catch` downgrades every error to a logged outcome. -/
theorem refresh_cycle_never_throws :
    (∀ (o : CycleOutcomes) (d : Dom),
      ∃ d2, refreshAllMetricsCall o d = Except.ok d2) ∧
    (∀ (o : ChartsOutcomes) (vars : ℕ → ℤ) (s : HealthcareChartsManager),
      ∃ s2, updateAllChartsCall o vars s = Except.ok s2) := by
  constructor
  · intro o d
    unfold refreshAllMetricsCall
    rcases h : refreshAllMetricsBody o d with ⟨d1, err⟩
    cases err with
    | none => exact ⟨d1, rfl⟩
    | some e => exact ⟨d1, rfl⟩
  · intro o vars s
    unfold updateAllChartsCall
    rcases h : updateAllChartsBody o vars s with ⟨s1, err⟩
    cases err with
    | none => exact ⟨s1, rfl⟩
    | some e => exact ⟨s1, rfl⟩

/-- `stopAutoUpdate` touches only the interval handle. -/
theorem stopAutoUpdate_charts (s : HealthcareChartsManager) :
    (stopAutoUpdate s).charts = s.charts := by
  cases h : s.updateInterval <;> simp [stopAutoUpdate, h]

/-- `stopAutoUpdate` leaves the interval handle null. -/
theorem stopAutoUpdate_interval (s : HealthcareChartsManager) :
    (stopAutoUpdate s).updateInterval = none := by
  cases h : s.updateInterval <;> simp [stopAutoUpdate, h]

/-- The guarded `forEach` of `destroyCharts` never throws: starting from
no pending exception it ends with no pending exception. -/
theorem destroyLoop_ok (entries : List RegEntry) (h : List ChartRec) :
    ∃ h2, entries.foldl destroyStep (h, none) = (h2, none) := by
  induction entries generalizing h with
  | nil => exact ⟨h, rfl⟩
  | cons e t ih =>
    cases e with
    | chart id =>
      simpa [List.foldl, destroyStep, hasDestroyFn, jsCallDestroy] using
        ih (setAt h id (fun rc => { rc with destroyed := true }))
    | nullV => simpa [List.foldl, destroyStep, hasDestroyFn] using ih h
    | undefV => simpa [List.foldl, destroyStep, hasDestroyFn] using ih h
    | noDestroy => simpa [List.foldl, destroyStep, hasDestroyFn] using ih h

/-- C9: `destroyCharts` completes without error on every registry state —
entries that are null, undefined, or objects without a `destroy` function
are skipped by the guard — and afterwards the registry object is empty and
auto-update is stopped; in particular it is a safe no-op when zero chart
handles were ever created. -/
theorem destroyCharts_null_safe (s : HealthcareChartsManager) :
    (destroyCharts s).2 = none ∧ (destroyCharts s).1.charts = [] ∧
    (destroyCharts s).1.updateInterval = none := by
  obtain ⟨h2, hh⟩ := destroyLoop_ok (s.charts.map Prod.snd) s.heap
  unfold destroyCharts
  rw [hh]
  refine ⟨rfl, ?_, ?_⟩
  · exact stopAutoUpdate_charts _
  · exact stopAutoUpdate_interval _

/-- Two datasets agree on everything except possibly the mutable `data`
array. -/
def dsSameShape (a b : Dataset) : Prop :=
  a.label = b.label ∧ a.backgroundColor = b.backgroundColor ∧
  a.borderColor = b.borderColor ∧ a.borderWidth = b.borderWidth

/-- Two chart instances agree on identity-relevant state — type, labels,
options, destruction flag, and every dataset attribute except the mutable
`data` arrays. -/
def sameExceptData (a b : ChartRec) : Prop :=
  a.typ = b.typ ∧ a.labels = b.labels ∧ a.yMax = b.yMax ∧
  a.destroyed = b.destroyed ∧ List.Forall₂ dsSameShape a.datasets b.datasets

theorem dsSameShape_refl (a : Dataset) : dsSameShape a a :=
  ⟨rfl, rfl, rfl, rfl⟩

theorem dsSameShape_trans {a b c : Dataset}
    (h1 : dsSameShape a b) (h2 : dsSameShape b c) : dsSameShape a c :=
  ⟨h1.1.trans h2.1, h1.2.1.trans h2.2.1, h1.2.2.1.trans h2.2.2.1,
   h1.2.2.2.trans h2.2.2.2⟩

theorem forall2_trans_of {α : Type} {R : α → α → Prop}
    (hR : ∀ a b c, R a b → R b c → R a c) :
    ∀ {l1 l2 l3 : List α},
      List.Forall₂ R l1 l2 → List.Forall₂ R l2 l3 → List.Forall₂ R l1 l3 := by
  intro l1 l2 l3 h1 h2
  induction h1 generalizing l3 with
  | nil => cases h2; constructor
  | cons hab h ih =>
    cases h2 with
    | cons hbc h3 => exact List.Forall₂.cons (hR _ _ _ hab hbc) (ih h3)

theorem forall2_dsSameShape_refl (l : List Dataset) :
    List.Forall₂ dsSameShape l l := by
  induction l with
  | nil => constructor
  | cons a t ih => exact List.Forall₂.cons (dsSameShape_refl a) ih

theorem sameExceptData_refl (a : ChartRec) : sameExceptData a a :=
  ⟨rfl, rfl, rfl, rfl, forall2_dsSameShape_refl a.datasets⟩

theorem forall2_sameExceptData_refl (l : List ChartRec) :
    List.Forall₂ sameExceptData l l := by
  induction l with
  | nil => constructor
  | cons a t ih => exact List.Forall₂.cons (sameExceptData_refl a) ih

theorem sameExceptData_trans {a b c : ChartRec}
    (h1 : sameExceptData a b) (h2 : sameExceptData b c) : sameExceptData a c :=
  ⟨h1.1.trans h2.1, h1.2.1.trans h2.2.1, h1.2.2.1.trans h2.2.2.1,
   h1.2.2.2.1.trans h2.2.2.2.1,
   @forall2_trans_of Dataset dsSameShape
     (fun _ _ _ ha hb => dsSameShape_trans ha hb) _ _ _
     h1.2.2.2.2 h2.2.2.2.2⟩

/-- A charts-manager transition that keeps the registry, the interval
handle, and every chart instance's shape (everything but dataset data). -/
def PreservesShape (a b : HealthcareChartsManager) : Prop :=
  b.charts = a.charts ∧ b.updateInterval = a.updateInterval ∧
  List.Forall₂ sameExceptData a.heap b.heap

theorem preservesShape_refl (s : HealthcareChartsManager) : PreservesShape s s :=
  ⟨rfl, rfl, forall2_sameExceptData_refl s.heap⟩

theorem preservesShape_trans {a b c : HealthcareChartsManager}
    (h1 : PreservesShape a b) (h2 : PreservesShape b c) : PreservesShape a c :=
  ⟨h2.1.trans h1.1, h2.2.1.trans h1.2.1,
   @forall2_trans_of ChartRec sameExceptData
     (fun _ _ _ ha hb => sameExceptData_trans ha hb) _ _ _
     h1.2.2 h2.2.2⟩

theorem forall2_setAt (l : List ChartRec) (i : ℕ) (f : ChartRec → ChartRec)
    (hf : ∀ rc, sameExceptData rc (f rc)) :
    List.Forall₂ sameExceptData l (setAt l i f) := by
  induction l generalizing i with
  | nil => constructor
  | cons rc t ih =>
    cases i with
    | zero => exact List.Forall₂.cons (hf rc) (forall2_sameExceptData_refl t)
    | succ n => exact List.Forall₂.cons (sameExceptData_refl rc) (ih n)

theorem updateLineData_shape (ds : List Dataset) (src : List SrcDataset) :
    List.Forall₂ dsSameShape ds (updateLineData ds src) := by
  induction ds generalizing src with
  | nil => constructor
  | cons d t ih =>
    cases src with
    | nil => exact List.Forall₂.cons (dsSameShape_refl d) (ih [])
    | cons nd nt => exact List.Forall₂.cons ⟨rfl, rfl, rfl, rfl⟩ (ih nt)

theorem setData0_shape (ds : List Dataset) (nd : List ℚ) :
    List.Forall₂ dsSameShape ds (setData0 ds nd) := by
  cases ds with
  | nil => constructor
  | cons d t => exact List.Forall₂.cons ⟨rfl, rfl, rfl, rfl⟩ (forall2_dsSameShape_refl t)

theorem respStep_shape (res : Except FetchError ResponseTimeData)
    (s : HealthcareChartsManager) : PreservesShape s (respStep res s).1 := by
  unfold respStep
  split
  · split
    · exact preservesShape_refl s
    · exact ⟨rfl, rfl, forall2_setAt _ _ _
        (fun rc => ⟨rfl, rfl, rfl, rfl, updateLineData_shape _ _⟩)⟩
  · split
    · exact preservesShape_refl s
    · exact preservesShape_refl s
  · exact preservesShape_refl s

theorem volStep_shape (res : Except FetchError VolumeData)
    (s : HealthcareChartsManager) : PreservesShape s (volStep res s).1 := by
  unfold volStep
  split
  · split
    · exact preservesShape_refl s
    · exact ⟨rfl, rfl, forall2_setAt _ _ _
        (fun rc => ⟨rfl, rfl, rfl, rfl, setData0_shape _ _⟩)⟩
  · split
    · exact preservesShape_refl s
    · exact preservesShape_refl s
  · exact preservesShape_refl s

theorem healthStep_shape (res : Except FetchError SystemHealthData)
    (s : HealthcareChartsManager) : PreservesShape s (healthStep res s).1 := by
  unfold healthStep
  split
  · split
    · exact preservesShape_refl s
    · exact ⟨rfl, rfl, forall2_setAt _ _ _
        (fun rc => ⟨rfl, rfl, rfl, rfl, setData0_shape _ _⟩)⟩
  · split
    · exact preservesShape_refl s
    · exact preservesShape_refl s
  · exact preservesShape_refl s

theorem fhirTrendsStep_shape (vars : ℕ → ℤ)
    (s : HealthcareChartsManager) : PreservesShape s (fhirTrendsStep vars s).1 := by
  unfold fhirTrendsStep
  split
  · exact ⟨rfl, rfl, forall2_setAt _ _ _
      (fun rc => ⟨rfl, rfl, rfl, rfl, setData0_shape _ _⟩)⟩
  · exact preservesShape_refl s
  · exact preservesShape_refl s

theorem chainErr_shape {s : HealthcareChartsManager}
    {r : HealthcareChartsManager × Option RunErr}
    {f : HealthcareChartsManager → HealthcareChartsManager × Option RunErr}
    (h1 : PreservesShape s r.1)
    (h2 : ∀ t, PreservesShape t (f t).1) :
    PreservesShape s (chainErr r f).1 := by
  obtain ⟨s1, err⟩ := r
  cases err with
  | some e => exact h1
  | none => exact preservesShape_trans h1 (h2 s1)

/-- C4: `updateAllCharts` never touches the registry or the interval
handle, and every chart instance keeps its identity and shape — same heap
slot, same type, labels, options, destruction flag and dataset attributes;
only the datasets' `data` arrays may change. No handle is destroyed or
recreated. -/
theorem updateAllCharts_preserves_handles (o : ChartsOutcomes) (vars : ℕ → ℤ)
    (s : HealthcareChartsManager) :
    (updateAllCharts o vars s).charts = s.charts ∧
    (updateAllCharts o vars s).updateInterval = s.updateInterval ∧
    List.Forall₂ sameExceptData s.heap (updateAllCharts o vars s).heap := by
  have h : PreservesShape s (updateAllCharts o vars s) := by
    unfold updateAllCharts updateAllChartsBody
    exact chainErr_shape (respStep_shape _ _) (fun t1 =>
      chainErr_shape (volStep_shape _ _) (fun t2 =>
        chainErr_shape (healthStep_shape _ _) (fun t3 =>
          fhirTrendsStep_shape _ _)))
  exact ⟨h.1, h.2.1, h.2.2⟩

/-- C6: the message-volume tooltip percentage is recomputed from the
current snapshot on every update, never cached. Starting from a chart
created over an arbitrary prior snapshot `vdOld`, after an update
delivering `vdNew` the chart's current dataset data is exactly
`vdNew.data`, and the tooltip label for index `i` shows the raw value
together with `value / (sum of all current values) * 100` rendered by
`toFixed(1)` — a function of `vdNew` alone, with the total recomputed by
the callback's `reduce` over the current data. -/
theorem messageVolume_percentage_recomputed
    (vdOld vdNew : VolumeData) (i : ℕ) (hi : i < vdNew.data.length)
    (o : ChartsOutcomes) (vars : ℕ → ℤ)
    (ho : o.messageVolume = Except.ok vdNew) :
    ∃ rc,
      (updateAllCharts o vars
          (createMessageVolumeChart true (Except.ok vdOld) initChartsManager)).heap.get? 0
        = some rc ∧
      (rc.datasets.get? 0).map Dataset.data = some vdNew.data ∧
      messageVolumeTooltipLabel ((rc.labels.get? i).getD "")
          (vdNew.data.get ⟨i, hi⟩) vdNew.data
        = (vdOld.labels.get? i).getD "" ++ ": " ++ qToString (vdNew.data.get ⟨i, hi⟩)
          ++ "% (" ++ toFixed1 (vdNew.data.get ⟨i, hi⟩ / sumQ vdNew.data * 100)
          ++ "% of total)" := by
  obtain ⟨o1, o2, o3⟩ := o
  have h2 : o2 = Except.ok vdNew := ho
  subst h2
  exact ⟨_, rfl, rfl, rfl⟩

/-- Witness for C6: the specification's own raw values
`[1247, 892, 634, 445, 321]` delivered as the fresh snapshot; the first
label's tooltip reads `35.2`, which is `1247 / 3539 * 100` to one decimal
place. -/
theorem messageVolume_percentage_witness :
    (∃ rc,
      (updateAllCharts chartsOutcomesVol (fun _ => 0)
          (createMessageVolumeChart true (Except.ok volSample1) initChartsManager)).heap.get? 0
        = some rc ∧
      (rc.datasets.get? 0).map Dataset.data = some volSampleFhir.data) ∧
    messageVolumeTooltipLabel "Patient" 1247 volSampleFhir.data
      = "Patient: 1247% (35.2% of total)" := by
  constructor
  · obtain ⟨rc, h1, h2, h3⟩ :=
      messageVolume_percentage_recomputed volSample1 volSampleFhir 0 (by decide)
        chartsOutcomesVol (fun _ => 0) rfl
    exact ⟨rc, h1, h2⟩
  · have hsum : sumQ volSampleFhir.data = 3539 := by
      simp only [sumQ, volSampleFhir, List.foldl]
      norm_num
    have harg : (1247 : ℚ) / 3539 * 100 = mkRat 124700 3539 := by
      rw [Rat.mkRat_eq_div]
      norm_num
    simp only [messageVolumeTooltipLabel, hsum, harg]
    decide
